import Mathlib

/-!
Verification of the `typed-uuid` library (`src/src/lib.rs`): a typed wrapper
`Id<T, Version>` around a 128-bit UUID with phantom subject and scheme
parameters.  The UUID itself is modelled as its 16 bytes; the bit-level
constructors of the external `uuid` crate (the spec's "external collaborator")
are modelled faithfully to that crate's builder code, parameterised by their
entropy / hash inputs so that all sources of nondeterminism are explicit.
-/

namespace TypedUuid

/-- A 128-bit UUID represented as its 16 bytes (each intended `< 256`),
in the big-endian field layout used by the `uuid` crate. -/
structure Uuid where
  bytes : List Nat
deriving DecidableEq, Repr

/-- `Uuid::get_version_num`: the high nibble of byte 6 (`bytes[6] >> 4`). -/
def Uuid.getVersionNum (u : Uuid) : Nat :=
  (u.bytes.getD 6 0) / 16

/-- `Builder::with_variant(Variant::RFC4122)` of the `uuid` crate:
`bytes[8] = (bytes[8] & 0x3F) | 0x80`. -/
def withVariantRfc4122 (bs : List Nat) : List Nat :=
  bs.set 8 ((bs.getD 8 0) % 64 + 128)

/-- `Builder::with_version(v)` of the `uuid` crate:
`bytes[6] = (bytes[6] & 0x0F) | (v << 4)`. -/
def withVersionNum (v : Nat) (bs : List Nat) : List Nat :=
  bs.set 6 ((bs.getD 6 0) % 16 + v * 16)

/-- Assemble a `Uuid` from raw bytes by stamping the RFC4122 variant and the
version nibble, as every `Builder::from_*_bytes` constructor of the `uuid`
crate does. -/
def buildUuid (v : Nat) (raw : List Nat) : Uuid :=
  ⟨withVersionNum v (withVariantRfc4122 raw)⟩

/-- `n` rendered as `k` big-endian bytes. -/
def beBytes : Nat → Nat → List Nat
  | _, 0 => []
  | n, k + 1 => beBytes (n / 256) k ++ [n % 256]

/-- Models `Uuid::new_v1` of the external `uuid` crate
(`Builder::from_rfc4122_timestamp`): 60-bit tick count split into
`time_low`/`time_mid`/`time_high`, 14-bit clock sequence, 6-byte node id,
version nibble 1 stamped into byte 6. -/
def uuidNewV1 (ticks counter : Nat) (node : List Nat) : Uuid :=
  buildUuid 1
    (beBytes (ticks % 2 ^ 32) 4 ++ beBytes (ticks / 2 ^ 32 % 2 ^ 16) 2 ++
      beBytes (ticks / 2 ^ 48 % 2 ^ 16) 2 ++ beBytes (counter % 2 ^ 16) 2 ++ node)

/-- Models `Uuid::new_v3` of the external `uuid` crate: MD5 of
namespace bytes followed by the name, then variant and version 3 stamped.
The MD5 digest function is passed explicitly as the deterministic function
`md5` from (namespace bytes, name bytes) to the 16 digest bytes. -/
def uuidNewV3 (md5 : List Nat → List Nat → List Nat) (ns : Uuid) (name : List Nat) : Uuid :=
  buildUuid 3 (md5 ns.bytes name)

/-- Models `Uuid::new_v4` of the external `uuid` crate: 16 random bytes
(passed explicitly) with variant and version 4 stamped. -/
def uuidNewV4 (random : List Nat) : Uuid :=
  buildUuid 4 random

/-- Models `Uuid::new_v5` of the external `uuid` crate: SHA-1 of
namespace bytes followed by the name (truncated to 16 bytes inside the
collaborator; `sha1` here yields those 16 bytes), variant and version 5
stamped. -/
def uuidNewV5 (sha1 : List Nat → List Nat → List Nat) (ns : Uuid) (name : List Nat) : Uuid :=
  buildUuid 5 (sha1 ns.bytes name)

/-- Models `Uuid::new_v6` of the external `uuid` crate
(`Builder::from_sorted_rfc4122_timestamp`): the 60 timestamp bits stored
high-to-low, version nibble 6. -/
def uuidNewV6 (ticks counter : Nat) (node : List Nat) : Uuid :=
  buildUuid 6
    (beBytes (ticks / 2 ^ 12 % 2 ^ 48) 6 ++ beBytes (ticks % 2 ^ 12) 2 ++
      beBytes (counter % 2 ^ 16) 2 ++ node)

/-- Models `Uuid::new_v7` of the external `uuid` crate
(`Builder::from_unix_timestamp_millis`): 48-bit millisecond timestamp
big-endian in bytes 0-5, ten random bytes (passed explicitly) in bytes 6-15,
variant and version 7 stamped. -/
def uuidNewV7 (millis : Nat) (random : List Nat) : Uuid :=
  buildUuid 7 (beBytes (millis % 2 ^ 48) 6 ++ random)

/-- Models `Uuid::new_v8` of the external `uuid` crate: the caller's 16
bytes with variant and version 8 stamped. -/
def uuidNewV8 (buf : List Nat) : Uuid :=
  buildUuid 8 buf

/-- `Error` of `src/src/lib.rs`: the single error kind
`WrongVersion { expected, actual }`. -/
inductive Error where
  | wrongVersion (expected actual : Nat)
deriving DecidableEq, Repr

/-- Version marker `V1` ("Denotes that the contained Uuid is of type V1"). -/
inductive V1 where
  | mk

/-- Version marker `V3`. -/
inductive V3 where
  | mk

/-- Version marker `V4`. -/
inductive V4 where
  | mk

/-- Version marker `V5`. -/
inductive V5 where
  | mk

/-- Version marker `V6`. -/
inductive V6 where
  | mk

/-- Version marker `V7`. -/
inductive V7 where
  | mk

/-- Version marker `V8`. -/
inductive V8 where
  | mk

/-- `Id<T, Version>` of `src/src/lib.rs`: a `Uuid` together with
phantom parameters `T` (subject) and `Version` (scheme); the `PhantomData`
field has no runtime content and is omitted. -/
structure Id (T Version : Type) where
  uuid : Uuid
deriving DecidableEq, Repr

/-- `Id::<T, V1>::new(ts, node_id)`: `Self(Uuid::new_v1(ts, node_id), PhantomData)`.
The `Timestamp` is represented by its RFC4122 decomposition `(ticks, counter)`. -/
def Id.newV1 (T : Type) (ticks counter : Nat) (node : List Nat) : Id T V1 :=
  ⟨uuidNewV1 ticks counter node⟩

/-- `Id::<T, V3>::new(namespace, name)`: `Self(Uuid::new_v3(namespace, name), PhantomData)`. -/
def Id.newV3 (T : Type) (md5 : List Nat → List Nat → List Nat) (ns : Uuid)
    (name : List Nat) : Id T V3 :=
  ⟨uuidNewV3 md5 ns name⟩

/-- `Id::<T, V4>::new()`: `Self(Uuid::new_v4(), PhantomData)`, with the random
bytes drawn by the collaborator passed explicitly. -/
def Id.newV4 (T : Type) (random : List Nat) : Id T V4 :=
  ⟨uuidNewV4 random⟩

/-- `Id::<T, V5>::new(namespace, name)`: `Self(Uuid::new_v5(namespace, name), PhantomData)`. -/
def Id.newV5 (T : Type) (sha1 : List Nat → List Nat → List Nat) (ns : Uuid)
    (name : List Nat) : Id T V5 :=
  ⟨uuidNewV5 sha1 ns name⟩

/-- `Id::<T, V6>::new(ts, node_id)` as written at `src/src/lib.rs:384`:
`Self(Uuid::new_v1(ts, node_id), PhantomData)` — note the call to `new_v1`,
not `new_v6`. -/
def Id.newV6 (T : Type) (ticks counter : Nat) (node : List Nat) : Id T V6 :=
  ⟨uuidNewV1 ticks counter node⟩

/-- `Id::<T, V7>::new(ts)`: `Self(Uuid::new_v7(ts), PhantomData)`, with the
collaborator's random bytes passed explicitly. -/
def Id.newV7 (T : Type) (millis : Nat) (random : List Nat) : Id T V7 :=
  ⟨uuidNewV7 millis random⟩

/-- `Id::<T, V8>::new(buf)`: `Self(Uuid::new_v8(buf), PhantomData)`. -/
def Id.newV8 (T : Type) (buf : List Nat) : Id T V8 :=
  ⟨uuidNewV8 buf⟩

/-- `Id::<T, V1>::from_generic_uuid`. -/
def Id.fromGenericUuidV1 (T : Type) (u : Uuid) : Except Error (Id T V1) :=
  if u.getVersionNum = 1 then .ok ⟨u⟩
  else .error (.wrongVersion 1 u.getVersionNum)

/-- `Id::<T, V3>::from_generic_uuid`. -/
def Id.fromGenericUuidV3 (T : Type) (u : Uuid) : Except Error (Id T V3) :=
  if u.getVersionNum = 3 then .ok ⟨u⟩
  else .error (.wrongVersion 3 u.getVersionNum)

/-- `Id::<T, V4>::from_generic_uuid`. -/
def Id.fromGenericUuidV4 (T : Type) (u : Uuid) : Except Error (Id T V4) :=
  if u.getVersionNum = 4 then .ok ⟨u⟩
  else .error (.wrongVersion 4 u.getVersionNum)

/-- `Id::<T, V5>::from_generic_uuid`. -/
def Id.fromGenericUuidV5 (T : Type) (u : Uuid) : Except Error (Id T V5) :=
  if u.getVersionNum = 5 then .ok ⟨u⟩
  else .error (.wrongVersion 5 u.getVersionNum)

/-- `Id::<T, V6>::from_generic_uuid`. -/
def Id.fromGenericUuidV6 (T : Type) (u : Uuid) : Except Error (Id T V6) :=
  if u.getVersionNum = 6 then .ok ⟨u⟩
  else .error (.wrongVersion 6 u.getVersionNum)

/-- `Id::<T, V7>::from_generic_uuid`. -/
def Id.fromGenericUuidV7 (T : Type) (u : Uuid) : Except Error (Id T V7) :=
  if u.getVersionNum = 7 then .ok ⟨u⟩
  else .error (.wrongVersion 7 u.getVersionNum)

/-- `Id::<T, V8>::from_generic_uuid`. -/
def Id.fromGenericUuidV8 (T : Type) (u : Uuid) : Except Error (Id T V8) :=
  if u.getVersionNum = 8 then .ok ⟨u⟩
  else .error (.wrongVersion 8 u.getVersionNum)

/-- Lowercase hexadecimal digit character for `n < 16`. -/
def hexDigitChar (n : Nat) : Char :=
  if n < 10 then Char.ofNat (48 + n) else Char.ofNat (87 + n)

/-- A byte rendered as two lowercase hex digits. -/
def byteToHex (b : Nat) : String :=
  String.mk [hexDigitChar (b / 16 % 16), hexDigitChar (b % 16)]

/-- A byte list rendered as lowercase hex. -/
def bytesToHex (l : List Nat) : String :=
  String.join (l.map byteToHex)

/-- The canonical hyphenated textual form of a UUID (8-4-4-4-12 lowercase hex
groups), as produced by the `uuid` crate's `Display` (and identical `Debug`)
implementation. -/
def Uuid.toHyphenatedString (u : Uuid) : String :=
  bytesToHex (u.bytes.take 4) ++ "-" ++ bytesToHex ((u.bytes.drop 4).take 2) ++ "-" ++
    bytesToHex ((u.bytes.drop 6).take 2) ++ "-" ++ bytesToHex ((u.bytes.drop 8).take 2) ++
    "-" ++ bytesToHex (u.bytes.drop 10)

/-- `Debug for Id<T, Version>` (`src/src/lib.rs:124`):
`f.debug_tuple("Id").field(&self.0).finish()`, where the field is rendered by
the `Uuid` `Debug` implementation (the hyphenated form). -/
def Id.debugFmt {T V : Type} (x : Id T V) : String :=
  "Id(" ++ x.uuid.toHyphenatedString ++ ")"

/-- `Display for Id<T, Version>` (`src/src/lib.rs:130`): `write!(f, "{}", self.0)`. -/
def Id.displayFmt {T V : Type} (x : Id T V) : String :=
  x.uuid.toHyphenatedString

/-- Lexicographic comparison of byte lists: the derived `Ord` of the
`uuid` crate's `[u8; 16]`-backed `Uuid`. -/
def cmpBytes : List Nat → List Nat → Ordering
  | [], [] => .eq
  | [], _ :: _ => .lt
  | _ :: _, [] => .gt
  | a :: as, b :: bs => (compare a b).then (cmpBytes as bs)

/-- The `Ord` instance of the external `uuid` crate: byte-wise lexicographic. -/
def Uuid.cmp (a b : Uuid) : Ordering :=
  cmpBytes a.bytes b.bytes

/-- The comparison contributed by the `PhantomData<(T, Version)>` field: a
zero-sized type whose derived `Ord` always yields `Equal`. -/
def phantomCmp : Ordering := .eq

/-- The `Ord` derived for `Id<T, Version>` (`src/src/lib.rs:109`): compare
field 0 (the `Uuid`), then field 1 (the `PhantomData`). -/
def Id.cmp {T V : Type} (a b : Id T V) : Ordering :=
  (Uuid.cmp a.uuid b.uuid).then phantomCmp

/-- `PartialEq<Id<T, Version>> for Id<T, Version>` (`src/src/lib.rs:156`):
`self.0 == other.0`. -/
def Id.beqId {T V : Type} (a b : Id T V) : Bool :=
  a.uuid == b.uuid

/-- `PartialEq<Uuid> for Id<T, Version>` (`src/src/lib.rs:162`):
`&self.0 == other`. -/
def Id.beqUuid {T V : Type} (a : Id T V) (u : Uuid) : Bool :=
  a.uuid == u

/-- `Hash for Id<T, Version>` (`src/src/lib.rs:136`): only `self.0` is fed to
the hasher; the hasher itself is an explicit parameter `h`. -/
def Id.hashWith {T V : Type} (h : Uuid → Nat) (x : Id T V) : Nat :=
  h x.uuid

/-- `AsRef<Uuid> for Id<T, Version>` (`src/src/lib.rs:142`): `&self.0`. -/
def Id.as_ref {T V : Type} (x : Id T V) : Uuid :=
  x.uuid

/-- `Deref for Id<T, Version>` (`src/src/lib.rs:148`): `Target = Uuid`, `&self.0`. -/
def Id.deref {T V : Type} (x : Id T V) : Uuid :=
  x.uuid

/-- Serialization of the external `uuid` crate's `Uuid`: its serialized form
is determined by (here: identified with) its 16 bytes. -/
def Uuid.serialize (u : Uuid) : List Nat :=
  u.bytes

/-- Modelled from the spec: the `serde::Serialize` impl generated by the
derive on `Id` (`src/src/lib.rs:110`) with the `PhantomData` field marked
`#[serde(skip)]` is not present under `src/`; per the spec it "serializes a
typed identifier as exactly the serialized form of its underlying untyped
value — the phantom parameters contribute no bytes". -/
def Id.serde_serialize {T V : Type} (x : Id T V) : List Nat :=
  x.uuid.serialize

/-- Modelled from the spec: the `serde::Deserialize` impl generated by the
derive on `Id` (`src/src/lib.rs:110`) is not present under `src/`; per the
spec the phantom parameters "are skipped entirely on deserialization" and the
bytes are **not** re-validated against the scheme's version nibble. -/
def Id.serde_deserialize (T V : Type) (data : List Nat) : Id T V :=
  ⟨⟨data⟩⟩

/-- Sixteen zero bytes, used as concrete sample input. -/
def zeros16 : List Nat := List.replicate 16 0

/-- A concrete UUID whose version nibble is 4. -/
def sampleV4Uuid : Uuid := buildUuid 4 zeros16

/-- A concrete UUID whose version nibble is 1. -/
def sampleV1Uuid : Uuid := buildUuid 1 zeros16

/-- A concrete hasher for witness instances. -/
def sampleHasher (u : Uuid) : Nat := u.bytes.getD 0 0

/-- A concrete stand-in for a 16-byte digest function. -/
def constHash16 : List Nat → List Nat → List Nat := fun _ _ => List.replicate 16 7

/-- A concrete typed identifier built directly from `sampleV4Uuid`. -/
def sampleIdA : Id Unit V4 := ⟨sampleV4Uuid⟩

/-- A concrete typed identifier built through the v4 constructor from the same
bytes. -/
def sampleIdB : Id Unit V4 := Id.newV4 Unit zeros16

/- ## Supporting lemmas -/

/-- Reading back the byte just written by `List.set`. -/
theorem getD_set_self (l : List Nat) (i x : Nat) (h : i < l.length) :
    (l.set i x).getD i 0 = x := by
  induction l generalizing i with
  | nil => simp at h
  | cons a as ih =>
    cases i with
    | zero => rfl
    | succ n => simpa [List.getD] using ih n (by simpa using h)

/-- `List.set` leaves other positions untouched. -/
theorem getD_set_of_ne (l : List Nat) (i j x : Nat) (h : i ≠ j) :
    (l.set i x).getD j 0 = l.getD j 0 := by
  induction l generalizing i j with
  | nil => rfl
  | cons a as ih =>
    cases i with
    | zero =>
      cases j with
      | zero => exact absurd rfl h
      | succ m => rfl
    | succ n =>
      cases j with
      | zero => rfl
      | succ m => simpa [List.getD] using ih n m (by omega)

/-- `beBytes` produces exactly the requested number of bytes. -/
theorem beBytes_length (n k : Nat) : (beBytes n k).length = k := by
  induction k generalizing n with
  | zero => rfl
  | succ m ih => simp [beBytes, ih]

/-- Stamping the version nibble works: whenever byte 6 exists, the assembled
UUID reports exactly the stamped version. -/
theorem getVersionNum_buildUuid (v : Nat) (raw : List Nat) (h : 6 < raw.length) :
    (buildUuid v raw).getVersionNum = v := by
  have hlen : 6 < (withVariantRfc4122 raw).length := by
    simpa [withVariantRfc4122] using h
  show (withVersionNum v (withVariantRfc4122 raw)).getD 6 0 / 16 = v
  rw [withVersionNum, getD_set_self _ _ _ hlen]
  omega

/-- The v6 constructor delegates to `uuidNewV1`, so it always stamps version
nibble 1 — never 6 — whatever the timestamp, counter and node bytes are. -/
theorem newV6_version_eq_one (T : Type) (ticks counter : Nat) (node : List Nat) :
    (Id.newV6 T ticks counter node).uuid.getVersionNum = 1 := by
  show (uuidNewV1 ticks counter node).getVersionNum = 1
  refine getVersionNum_buildUuid 1 _ ?_
  simp [beBytes_length]
  omega

/- ## Claim theorems -/

/-- C1: the claim says every constructor `Id::<T,S>::new` stamps S's declared
version nibble; for `S = V6` the code calls `Uuid::new_v1`, so at the concrete
input (ticks 0, counter 0, zero node id) the constructed value's version
nibble is 1, not the declared 6. -/
theorem c1_v6_new_wrong_version_nibble :
    (Id.newV6 Unit 0 0 [0, 0, 0, 0, 0, 0]).uuid.getVersionNum = 1 ∧
    (Id.newV6 Unit 0 0 [0, 0, 0, 0, 0, 0]).uuid.getVersionNum ≠ 6 := by
  decide

/-- C2: for every scheme, `from_generic_uuid` succeeds exactly when the version
nibble of the input equals the scheme's declared number, returning the same
bits; otherwise it fails with `WrongVersion` carrying the declared number as
`expected` and the input's nibble as `actual`. -/
theorem c2_fromGenericUuid_characterization (T : Type) (u : Uuid) :
    (Id.fromGenericUuidV1 T u = .ok ⟨u⟩ ↔ u.getVersionNum = 1) ∧
    (u.getVersionNum ≠ 1 →
      Id.fromGenericUuidV1 T u = .error (.wrongVersion 1 u.getVersionNum)) ∧
    (Id.fromGenericUuidV3 T u = .ok ⟨u⟩ ↔ u.getVersionNum = 3) ∧
    (u.getVersionNum ≠ 3 →
      Id.fromGenericUuidV3 T u = .error (.wrongVersion 3 u.getVersionNum)) ∧
    (Id.fromGenericUuidV4 T u = .ok ⟨u⟩ ↔ u.getVersionNum = 4) ∧
    (u.getVersionNum ≠ 4 →
      Id.fromGenericUuidV4 T u = .error (.wrongVersion 4 u.getVersionNum)) ∧
    (Id.fromGenericUuidV5 T u = .ok ⟨u⟩ ↔ u.getVersionNum = 5) ∧
    (u.getVersionNum ≠ 5 →
      Id.fromGenericUuidV5 T u = .error (.wrongVersion 5 u.getVersionNum)) ∧
    (Id.fromGenericUuidV6 T u = .ok ⟨u⟩ ↔ u.getVersionNum = 6) ∧
    (u.getVersionNum ≠ 6 →
      Id.fromGenericUuidV6 T u = .error (.wrongVersion 6 u.getVersionNum)) ∧
    (Id.fromGenericUuidV7 T u = .ok ⟨u⟩ ↔ u.getVersionNum = 7) ∧
    (u.getVersionNum ≠ 7 →
      Id.fromGenericUuidV7 T u = .error (.wrongVersion 7 u.getVersionNum)) ∧
    (Id.fromGenericUuidV8 T u = .ok ⟨u⟩ ↔ u.getVersionNum = 8) ∧
    (u.getVersionNum ≠ 8 →
      Id.fromGenericUuidV8 T u = .error (.wrongVersion 8 u.getVersionNum)) := by
  unfold Id.fromGenericUuidV1 Id.fromGenericUuidV3 Id.fromGenericUuidV4
    Id.fromGenericUuidV5 Id.fromGenericUuidV6 Id.fromGenericUuidV7 Id.fromGenericUuidV8
  refine ⟨?_, ?_, ?_, ?_, ?_, ?_, ?_, ?_, ?_, ?_, ?_, ?_, ?_, ?_⟩ <;>
    · split <;> simp_all

/-- Witness for C2 at the concrete version-4 sample UUID: converting it to a
v1-typed identifier fails with `WrongVersion{expected: 1, actual: 4}` and
converting it to a v4-typed identifier returns the same bits. -/
theorem c2_witness :
    sampleV4Uuid.getVersionNum ≠ 1 ∧
    Id.fromGenericUuidV1 Unit sampleV4Uuid =
      .error (.wrongVersion 1 sampleV4Uuid.getVersionNum) ∧
    Id.fromGenericUuidV4 Unit sampleV4Uuid = .ok ⟨sampleV4Uuid⟩ :=
  ⟨by decide,
    (c2_fromGenericUuid_characterization Unit sampleV4Uuid).2.1 (by decide),
    ((c2_fromGenericUuid_characterization Unit sampleV4Uuid).2.2.2.2.1).mpr (by decide)⟩

/-- C3: equality, ordering and hashing of `Id<T, Version>` depend only on the
wrapped `Uuid`: `PartialEq` holds exactly on equal underlying values,
identifier equality coincides with underlying equality, the derived `Ord`
agrees with the `Uuid` order (the phantom field always compares `Equal`), and
equal underlying values hash identically under any hasher. -/
theorem c3_eq_ord_hash_ignore_phantom (T V : Type) (a b : Id T V) (h : Uuid → Nat) :
    (Id.beqId a b = true ↔ a.uuid = b.uuid) ∧
    (a = b ↔ a.uuid = b.uuid) ∧
    Id.cmp a b = Uuid.cmp a.uuid b.uuid ∧
    (a.uuid = b.uuid → Id.hashWith h a = Id.hashWith h b) := by
  refine ⟨by simp [Id.beqId], ?_, ?_, fun hu => by simp [Id.hashWith, hu]⟩
  · cases a; cases b; simp
  · show (Uuid.cmp a.uuid b.uuid).then phantomCmp = Uuid.cmp a.uuid b.uuid
    cases Uuid.cmp a.uuid b.uuid <;> rfl

/-- Witness for C3: two sample identifiers built from the same bytes through
different paths are equal, compare `Equal`-consistently and hash identically. -/
theorem c3_witness :
    sampleIdA.uuid = sampleIdB.uuid ∧
    Id.beqId sampleIdA sampleIdB = true ∧
    sampleIdA = sampleIdB ∧
    Id.hashWith sampleHasher sampleIdA = Id.hashWith sampleHasher sampleIdB := by
  have h := c3_eq_ord_hash_ignore_phantom Unit V4 sampleIdA sampleIdB sampleHasher
  exact ⟨by decide, h.1.mpr (by decide), h.2.1.mpr (by decide), h.2.2.2 (by decide)⟩

/-- C4 counterexample: at the concrete sample identifier, `Debug` formatting
does not render only the canonical hyphenated form — it wraps it as
`Id(...)` — so the claim as stated is false. -/
theorem c4_counterexample :
    ¬ (Id.debugFmt sampleIdA = sampleIdA.uuid.toHyphenatedString ∧
        Id.displayFmt sampleIdA = sampleIdA.uuid.toHyphenatedString) := by
  decide

/-- C4 amended: `Display` renders exactly the underlying value's canonical
hyphenated hexadecimal form, while `Debug` renders that same form wrapped as
a tuple `Id(...)`; both are determined by the underlying value alone, so
neither ever includes the phantom Subject or Scheme type names. -/
theorem c4_formatting (T V : Type) (x : Id T V) :
    Id.displayFmt x = x.uuid.toHyphenatedString ∧
    Id.debugFmt x = "Id(" ++ x.uuid.toHyphenatedString ++ ")" :=
  ⟨rfl, rfl⟩

/-- C5: the v3 and v5 constructors are deterministic — with the same digest
function, namespace and name byte sequence, two calls yield bit-identical
underlying values. -/
theorem c5_v3_v5_deterministic (T : Type) (md5 sha1 : List Nat → List Nat → List Nat)
    (ns1 ns2 : Uuid) (name1 name2 : List Nat) (hns : ns1 = ns2) (hname : name1 = name2) :
    Id.newV3 T md5 ns1 name1 = Id.newV3 T md5 ns2 name2 ∧
    Id.newV5 T sha1 ns1 name1 = Id.newV5 T sha1 ns2 name2 := by
  subst hns; subst hname; exact ⟨rfl, rfl⟩

/-- Witness for C5 at a concrete digest function, namespace and name. -/
theorem c5_witness :
    Id.newV3 Unit constHash16 sampleV4Uuid [1, 2, 3] =
      Id.newV3 Unit constHash16 sampleV4Uuid [1, 2, 3] ∧
    Id.newV5 Unit constHash16 sampleV4Uuid [1, 2, 3] =
      Id.newV5 Unit constHash16 sampleV4Uuid [1, 2, 3] :=
  c5_v3_v5_deterministic Unit constHash16 constHash16 sampleV4Uuid sampleV4Uuid
    [1, 2, 3] [1, 2, 3] rfl rfl

/-- C6: every per-scheme constructor is total — it unconditionally wraps the
collaborator's value, with no error path — the only error kind is
`WrongVersion`, and an error arises only from `from_generic_uuid`, exactly
when the version nibble mismatches. -/
theorem c6_constructors_total_single_error (T : Type) :
    (∀ e : Error, ∃ expected actual, e = .wrongVersion expected actual) ∧
    (∀ ticks counter node, Id.newV1 T ticks counter node = ⟨uuidNewV1 ticks counter node⟩) ∧
    (∀ md5 ns name, Id.newV3 T md5 ns name = ⟨uuidNewV3 md5 ns name⟩) ∧
    (∀ random, Id.newV4 T random = ⟨uuidNewV4 random⟩) ∧
    (∀ sha1 ns name, Id.newV5 T sha1 ns name = ⟨uuidNewV5 sha1 ns name⟩) ∧
    (∀ ticks counter node, Id.newV6 T ticks counter node = ⟨uuidNewV1 ticks counter node⟩) ∧
    (∀ millis random, Id.newV7 T millis random = ⟨uuidNewV7 millis random⟩) ∧
    (∀ buf, Id.newV8 T buf = ⟨uuidNewV8 buf⟩) ∧
    (∀ u e, Id.fromGenericUuidV4 T u = .error e →
      e = .wrongVersion 4 u.getVersionNum ∧ u.getVersionNum ≠ 4) := by
  refine ⟨fun e => ?_, fun _ _ _ => rfl, fun _ _ _ => rfl, fun _ => rfl,
    fun _ _ _ => rfl, fun _ _ _ => rfl, fun _ _ => rfl, fun _ => rfl, fun u e h => ?_⟩
  · cases e with
    | wrongVersion expected actual => exact ⟨expected, actual, rfl⟩
  · unfold Id.fromGenericUuidV4 at h
    split at h
    · simp at h
    · simp only [Except.error.injEq] at h
      exact ⟨h.symm, by assumption⟩

/-- Witness for C6: the error characterization applied at the concrete
version-1 sample UUID converted towards scheme v4. -/
theorem c6_witness :
    Error.wrongVersion 4 1 = .wrongVersion 4 sampleV1Uuid.getVersionNum ∧
    sampleV1Uuid.getVersionNum ≠ 4 :=
  (c6_constructors_total_single_error Unit).2.2.2.2.2.2.2.2 sampleV1Uuid
    (.wrongVersion 4 1) (by rfl)

/-- C7: serialization of a typed identifier is exactly the serialization of
its underlying untyped value (the phantom parameters contribute no bytes),
and deserializing it back into the same Subject/Scheme type reproduces the
identifier bit-for-bit. -/
theorem c7_serde_roundtrip (T V : Type) (x : Id T V) :
    Id.serde_serialize x = Uuid.serialize x.uuid ∧
    Id.serde_deserialize T V (Id.serde_serialize x) = x := by
  cases x with
  | mk u => cases u with
    | mk bs => exact ⟨rfl, rfl⟩

/-- C8: deserialization never re-validates the version nibble: every untyped
value round-trips into a typed wrapper of any scheme — here v4 — even when
its nibble differs from the scheme's number, in which case `from_generic_uuid`
on the very same value fails with `WrongVersion`. -/
theorem c8_deserialize_no_validation (T : Type) (u : Uuid) :
    Id.serde_deserialize T V4 (Uuid.serialize u) = ⟨u⟩ ∧
    (u.getVersionNum ≠ 4 →
      Id.fromGenericUuidV4 T u = .error (.wrongVersion 4 u.getVersionNum)) := by
  refine ⟨by cases u with | mk bs => rfl, fun h => ?_⟩
  unfold Id.fromGenericUuidV4
  split
  · exact absurd (by assumption) h
  · rfl

/-- Witness for C8: the concrete version-1 sample UUID deserializes into a
v4-typed identifier even though its nibble is 1, while `from_generic_uuid`
rejects it. -/
theorem c8_witness :
    Id.serde_deserialize Unit V4 (Uuid.serialize sampleV1Uuid) = ⟨sampleV1Uuid⟩ ∧
    Id.fromGenericUuidV4 Unit sampleV1Uuid =
      .error (.wrongVersion 4 sampleV1Uuid.getVersionNum) :=
  ⟨(c8_deserialize_no_validation Unit sampleV1Uuid).1,
    (c8_deserialize_no_validation Unit sampleV1Uuid).2 (by decide)⟩

/-- C9: `as_ref` and `deref` both expose exactly the wrapped underlying value,
so any read-only operation applied through a typed identifier gives the same
result as applying it to the underlying value directly. -/
theorem c9_as_ref_deref (T V : Type) (x : Id T V) :
    Id.as_ref x = x.uuid ∧ Id.deref x = x.uuid ∧
    ∀ {α : Type} (f : Uuid → α), f (Id.as_ref x) = f x.uuid ∧ f (Id.deref x) = f x.uuid :=
  ⟨rfl, rfl, fun _ => ⟨rfl, rfl⟩⟩

/-- C10: a typed identifier compares equal to an untyped `Uuid` exactly when
its underlying value equals that `Uuid`. -/
theorem c10_partialEq_uuid (T V : Type) (x : Id T V) (u : Uuid) :
    Id.beqUuid x u = true ↔ x.uuid = u := by
  simp [Id.beqUuid]

/-- Witness for C10 at the concrete sample identifier and its own bytes. -/
theorem c10_witness : Id.beqUuid sampleIdA sampleV4Uuid = true :=
  (c10_partialEq_uuid Unit V4 sampleIdA sampleV4Uuid).mpr rfl

end TypedUuid
